import Mathlib

/-!
# A shallow embedding of `src/tcp.h`

The header defines a `connection` base class with `server` and `client`
subclasses.  A connection holds a data-socket descriptor `sockfd`, a
listening-socket descriptor `serverfd`, a `port`, an IP address string and a
`status` bitmask of `tcp_status` flags (a C `uint32_t`).

The embedding below translates each member function into a pure Lean
function on an explicit `Conn` record.  Kernel calls (`::read`, `::write`,
`::close`, `socket`, `setsockopt`, `bind`, `::listen`, `::accept`,
`::connect`, `fcntl`) are recorded as a trace of `KCall` events, and the
values the kernel would return are supplied as oracle arguments.  A path
that ends in `exit(1)` is modelled as `none`.  The per-descriptor file
status flags manipulated by `fcntl(F_GETFL/F_SETFL)` are modelled as a map
`Int → Nat` passed and returned explicitly.
-/

namespace Tcp

/-- `tcp::tcp_status::INITIALIZED` (src/tcp.h line 51). -/
def INITIALIZED : Nat := 0x0000

/-- `tcp::tcp_status::INIT_AS_SERVER` (src/tcp.h line 52). -/
def INIT_AS_SERVER : Nat := 0x0001

/-- `tcp::tcp_status::INIT_AS_CLIENT` (src/tcp.h line 53). -/
def INIT_AS_CLIENT : Nat := 0x0002

/-- `tcp::tcp_status::OPEN_SOCKET` (src/tcp.h line 54). -/
def OPEN_SOCKET : Nat := 0x0010

/-- `tcp::tcp_status::OPEN_SERVER` (src/tcp.h line 55). -/
def OPEN_SERVER : Nat := 0x0020

/-- `tcp::tcp_status::LISTENING` (src/tcp.h line 56). -/
def LISTENING : Nat := 0x0200

/-- `tcp::tcp_status::CONNECTED` (src/tcp.h line 57). -/
def CONNECTED : Nat := 0x1000

/-- The Linux `O_NONBLOCK` file status flag (octal `04000`). -/
def O_NONBLOCK : Nat := 0x800

/-- Bitwise NOT of a 32-bit mask: in `status |= ~FLAG` the C `int` value
`~FLAG` is converted to `uint32_t`, giving `0xFFFFFFFF XOR FLAG`. -/
def not32 (m : Nat) : Nat := 0xFFFFFFFF ^^^ m

/-- The protected state of `tcp::connection` (src/tcp.h lines 226-230):
`sockfd`, `serverfd`, `port`, `ipaddr` and the `uint32_t` status bitmask. -/
structure Conn where
  sockfd : Int
  serverfd : Int
  port : Int
  ipaddr : String
  status : Nat
deriving Repr, DecidableEq

/-- One kernel call issued by the code, with the descriptor it acts on
(and, for `socket`/`accept`, the descriptor the kernel returns). -/
inductive KCall where
  | kread (fd : Int) (n : Int)
  | kwrite (fd : Int) (n : Int)
  | kclose (fd : Int)
  | ksocket (ret : Int)
  | ksetsockopt (fd : Int)
  | kbind (fd : Int)
  | klisten (fd : Int) (backlog : Int)
  | kaccept (fd : Int) (ret : Int)
  | kconnect (fd : Int)
  | kgetfl (fd : Int)
  | ksetfl (fd : Int) (flags : Nat)
deriving Repr, DecidableEq

/-- Outcome of a kernel `::read`: `ok n` delivers `n ≥ 0` bytes, `wouldBlock`
is the non-blocking `-1`/`EAGAIN` outcome, `fail` any other `-1` error. -/
inductive KReadRes where
  | ok (n : Nat)
  | wouldBlock
  | fail
deriving Repr, DecidableEq

/-- The `int` value `::read` returns for each outcome: both `wouldBlock`
and `fail` surface as `-1`. -/
def KReadRes.toInt : KReadRes → Int
  | .ok n => (n : Int)
  | .wouldBlock => -1
  | .fail => -1

namespace connection

/-- The `connection` constructor (src/tcp.h lines 73-78): stores the port,
defaults a NULL address to `"127.0.0.1"`, sets `status = INITIALIZED`.
`sockfd`/`serverfd` are left uninitialized in C, so they are parameters. -/
def construct (sockfd0 serverfd0 : Int) (p : Int) (ip : Option String) : Conn :=
  { sockfd := sockfd0, serverfd := serverfd0, port := p,
    ipaddr := ip.getD "127.0.0.1", status := INITIALIZED }

/-- `connection::get_socket` (src/tcp.h lines 99-103). -/
def get_socket (c : Conn) : Int :=
  if c.status &&& OPEN_SOCKET ≠ 0 then c.sockfd else -1

/-- `connection::get_server_socket` (src/tcp.h lines 110-114): note the
guard tests `OPEN_SOCKET`, not `OPEN_SERVER`. -/
def get_server_socket (c : Conn) : Int :=
  if c.status &&& OPEN_SOCKET ≠ 0 then c.serverfd else -1

/-- `connection::read` (src/tcp.h lines 133-142): if `CONNECTED` is unset,
print an error and return `-1` with no kernel call; otherwise one kernel
`::read` on `sockfd` whose result `kres` is returned.  The connection state
is returned unchanged (the function assigns no field). -/
def read (c : Conn) (kres : KReadRes) (n : Int) : Conn × Int × List KCall :=
  if c.status &&& CONNECTED = 0 then (c, -1, [])
  else (c, kres.toInt, [KCall.kread c.sockfd n])

/-- `connection::write` (src/tcp.h lines 179-188): if `CONNECTED` is unset,
return `-1` with no kernel call; otherwise one kernel `::write` on `sockfd`
whose result `kres` is returned. -/
def write (c : Conn) (kres : Int) (n : Int) : Conn × Int × List KCall :=
  if c.status &&& CONNECTED = 0 then (c, -1, [])
  else (c, kres, [KCall.kwrite c.sockfd n])

/-- `connection::set_nonblock` (src/tcp.h lines 208-213):
`flag = fcntl(sockfd, F_GETFL); fcntl(sockfd, F_SETFL, flag | O_NONBLOCK)`.
Updates the file status flags of `sockfd` in the descriptor-flag map `w`. -/
def set_nonblock (c : Conn) (w : Int → Nat) : Conn × (Int → Nat) × List KCall :=
  let flag := w c.sockfd
  (c, fun fd => if fd = c.sockfd then flag ||| O_NONBLOCK else w fd,
   [KCall.kgetfl c.sockfd, KCall.ksetfl c.sockfd (flag ||| O_NONBLOCK)])

/-- `connection::unset_nonblock` (src/tcp.h lines 218-223):
`flag = fcntl(sockfd, F_GETFL); fcntl(sockfd, F_SETFL, flag & ~O_NONBLOCK)`. -/
def unset_nonblock (c : Conn) (w : Int → Nat) : Conn × (Int → Nat) × List KCall :=
  let flag := w c.sockfd
  (c, fun fd => if fd = c.sockfd then flag &&& not32 O_NONBLOCK else w fd,
   [KCall.kgetfl c.sockfd, KCall.ksetfl c.sockfd (flag &&& not32 O_NONBLOCK)])

/-- `connection::partial_read` (src/tcp.h lines 151-159):
`set_nonblock(); num = read(buf, n); unset_nonblock(); return num;`. -/
def partial_read (c : Conn) (w : Int → Nat) (kres : KReadRes) (n : Int) :
    Conn × (Int → Nat) × Int × List KCall :=
  let s := set_nonblock c w
  let r := read s.1 kres n
  let u := unset_nonblock r.1 s.2.1
  (u.1, u.2.1, r.2.1, s.2.2 ++ r.2.2 ++ u.2.2)

/-- `connection::close_sockfd` (src/tcp.h lines 232-238): kernel-close
`sockfd` when `OPEN_SOCKET` is set, then `status |= ~OPEN_SOCKET`. -/
def close_sockfd (c : Conn) : Conn × List KCall :=
  ({ c with status := c.status ||| not32 OPEN_SOCKET },
   if c.status &&& OPEN_SOCKET ≠ 0 then [KCall.kclose c.sockfd] else [])

/-- `connection::close_serverfd` (src/tcp.h lines 240-246): kernel-close
`serverfd` when `OPEN_SERVER` is set, then `status |= ~OPEN_SERVER`. -/
def close_serverfd (c : Conn) : Conn × List KCall :=
  ({ c with status := c.status ||| not32 OPEN_SERVER },
   if c.status &&& OPEN_SERVER ≠ 0 then [KCall.kclose c.serverfd] else [])

/-- `connection::close` (src/tcp.h lines 194-203): if `CONNECTED` is set,
run `close_sockfd` and return `0`; otherwise return `-1`. -/
def close (c : Conn) : Conn × Int × List KCall :=
  if c.status &&& CONNECTED ≠ 0 then
    let p := close_sockfd c
    (p.1, 0, p.2)
  else (c, -1, [])

end connection

namespace server

/-- `server::init_server` (src/tcp.h lines 316-352): `close_serverfd()`;
`serverfd = socket(...)` (exit on failure); address setup; `setsockopt(
serverfd, SO_REUSEADDR)`; `bind(serverfd, ...)` (exit on failure); then
`status |= INIT_AS_SERVER; status |= OPEN_SERVER`.  `sockRes` and `bindRes`
are the kernel results of `socket` and `bind`. -/
def init_server (c : Conn) (sockRes bindRes : Int) : Option Conn × List KCall :=
  let p := connection.close_serverfd c
  if sockRes < 0 then (none, p.2 ++ [KCall.ksocket sockRes])
  else
    let c1 : Conn := { p.1 with serverfd := sockRes }
    let tr := p.2 ++ [KCall.ksocket sockRes, KCall.ksetsockopt sockRes,
                      KCall.kbind sockRes]
    if bindRes ≠ 0 then (none, tr)
    else (some { c1 with status := c1.status ||| INIT_AS_SERVER ||| OPEN_SERVER }, tr)

/-- The `server` constructor (src/tcp.h lines 265-267): the `connection`
constructor followed by `init_server()`. -/
def construct (sockfd0 serverfd0 : Int) (p : Int) (ip : Option String)
    (sockRes bindRes : Int) : Option Conn × List KCall :=
  init_server (connection.construct sockfd0 serverfd0 p ip) sockRes bindRes

/-- `server::listen` (src/tcp.h lines 273-283): `::listen(serverfd, 50)`,
exit on nonzero result `st`, else `status |= LISTENING`. -/
def listen (c : Conn) (st : Int) : Option Conn × List KCall :=
  if st ≠ 0 then (none, [KCall.klisten c.serverfd 50])
  else (some { c with status := c.status ||| LISTENING },
        [KCall.klisten c.serverfd 50])

/-- `server::accept` (src/tcp.h lines 290-302): `sockfd = ::accept(serverfd,
...)`, exit when negative, else `status |= OPEN_SOCKET; status |= CONNECTED`.
The previous `sockfd` is overwritten without any kernel close. -/
def accept (c : Conn) (newfd : Int) : Option Conn × List KCall :=
  if newfd < 0 then (none, [KCall.kaccept c.serverfd newfd])
  else
    let c' : Conn :=
      { c with sockfd := newfd, status := c.status ||| OPEN_SOCKET ||| CONNECTED }
    (some c', [KCall.kaccept c.serverfd newfd])

end server

namespace client

/-- `client::init_connection` (src/tcp.h lines 398-424): `close_sockfd()`;
`setsockopt(sockfd, SO_REUSEADDR)` on the *current* (stale) `sockfd`; then
`sockfd = socket(...)` (exit on failure); address setup; then
`status |= INIT_AS_CLIENT; status |= OPEN_SOCKET`. -/
def init_connection (c : Conn) (sockRes : Int) : Option Conn × List KCall :=
  let p := connection.close_sockfd c
  let tr := p.2 ++ [KCall.ksetsockopt p.1.sockfd]
  if sockRes < 0 then (none, tr ++ [KCall.ksocket sockRes])
  else
    let c' : Conn :=
      { p.1 with sockfd := sockRes,
                 status := p.1.status ||| INIT_AS_CLIENT ||| OPEN_SOCKET }
    (some c', tr ++ [KCall.ksocket sockRes])

/-- The `client` constructor (src/tcp.h lines 368-372): the `connection`
constructor followed by `init_connection()`. -/
def construct (sockfd0 serverfd0 : Int) (p : Int) (ip : Option String)
    (sockRes : Int) : Option Conn × List KCall :=
  init_connection (connection.construct sockfd0 serverfd0 p ip) sockRes

/-- `client::connect` (src/tcp.h lines 378-389): `::connect(sockfd, ...)`,
exit on nonzero result `st`, else `status |= CONNECTED`. -/
def connect (c : Conn) (st : Int) : Option Conn × List KCall :=
  if st ≠ 0 then (none, [KCall.kconnect c.sockfd])
  else (some { c with status := c.status ||| CONNECTED },
        [KCall.kconnect c.sockfd])

end client

/-- One invocation of a public member function, together with the oracle
data (kernel results, descriptor-flag map) it consumes. -/
inductive Op where
  | lstn (st : Int)
  | acpt (newfd : Int)
  | conn (st : Int)
  | rd (kres : KReadRes) (n : Int)
  | wr (kres : Int) (n : Int)
  | prd (w : Int → Nat) (kres : KReadRes) (n : Int)
  | cls
  | snb (w : Int → Nat)
  | unb (w : Int → Nat)

/-- The connection state after one public operation; `none` when the
operation reaches `exit(1)`. -/
def stepOp (c : Conn) : Op → Option Conn
  | .lstn st => (server.listen c st).1
  | .acpt newfd => (server.accept c newfd).1
  | .conn st => (client.connect c st).1
  | .rd kres n => some (connection.read c kres n).1
  | .wr kres n => some (connection.write c kres n).1
  | .prd w kres n => some (connection.partial_read c w kres n).1
  | .cls => some (connection.close c).1
  | .snb w => some (connection.set_nonblock c w).1
  | .unb w => some (connection.unset_nonblock c w).1

/-- The states reachable from a `server` or `client` constructor by any
sequence of public operations. -/
inductive Reachable : Conn → Prop where
  | serverInit (sockfd0 serverfd0 p : Int) (ip : Option String)
      (sockRes bindRes : Int) (c : Conn)
      (h : (server.construct sockfd0 serverfd0 p ip sockRes bindRes).1 = some c) :
      Reachable c
  | clientInit (sockfd0 serverfd0 p : Int) (ip : Option String) (sockRes : Int)
      (c : Conn)
      (h : (client.construct sockfd0 serverfd0 p ip sockRes).1 = some c) :
      Reachable c
  | step (c c' : Conn) (o : Op) (hr : Reachable c) (h : stepOp c o = some c') :
      Reachable c'

/-! ## Sample states used as concrete inputs -/

/-- A connected client-side state: `INIT_AS_CLIENT`, `OPEN_SOCKET` and
`CONNECTED` set, data socket `5`. -/
def cConnected : Conn :=
  { sockfd := 5, serverfd := 4, port := 8081, ipaddr := "127.0.0.1",
    status := INIT_AS_CLIENT ||| OPEN_SOCKET ||| CONNECTED }

/-- An unconnected state: only `INIT_AS_SERVER` and `OPEN_SERVER` set
(a server with a listener but no accepted client). -/
def cListenOnly : Conn :=
  { sockfd := 0, serverfd := 4, port := 8081, ipaddr := "127.0.0.1",
    status := INIT_AS_SERVER ||| OPEN_SERVER }

/-- The state a freshly constructed client reaches with kernel socket result
`3` (its status is `0xFFFFFFFF` because the constructor path runs
`close_sockfd`, whose `status |= ~OPEN_SOCKET` sets every other bit). -/
def cClientW : Conn :=
  { sockfd := 3, serverfd := 0, port := 8081, ipaddr := "127.0.0.1",
    status := 0xFFFFFFFF }

/-- The state a freshly constructed server reaches with kernel socket result
`4` and bind result `0`. -/
def cServerW : Conn :=
  { sockfd := 0, serverfd := 4, port := 8081, ipaddr := "127.0.0.1",
    status := 0xFFFFFFFF }

/-- A reachable server state with an accepted data socket `7` still open. -/
def cSrvOpen : Conn :=
  { sockfd := 7, serverfd := 4, port := 8081, ipaddr := "127.0.0.1",
    status := 0xFFFFFFFF }

/-- A pre-constructor state: all status bits clear, stale descriptor `0`. -/
def cFresh : Conn :=
  { sockfd := 0, serverfd := 0, port := 8081, ipaddr := "127.0.0.1",
    status := INITIALIZED }

/-! ## Helper lemmas -/

/-- ORing a mask in and then masking with it yields the mask. -/
theorem lor_and_right (x m : Nat) : (x ||| m) &&& m = m := by
  apply Nat.eq_of_testBit_eq
  intro i
  rw [Nat.testBit_land, Nat.testBit_lor]
  cases x.testBit i <;> cases m.testBit i <;> rfl

/-- ORing any mask below `2^32` into the all-ones 32-bit word is absorbed. -/
theorem or_ones32 (m : Nat) (hm : m < 2 ^ 32) : 0xFFFFFFFF ||| m = 0xFFFFFFFF := by
  apply Nat.eq_of_testBit_eq
  intro i
  rw [Nat.testBit_lor]
  by_cases hi : i < 32
  · have h1 : ∀ j, j < 32 → Nat.testBit 0xFFFFFFFF j = true := by decide
    simp [h1 i hi]
  · have hpow : (2 : Nat) ^ 32 ≤ 2 ^ i :=
      Nat.pow_le_pow_right (by decide) (Nat.le_of_not_lt hi)
    have h1 : Nat.testBit 0xFFFFFFFF i = false :=
      Nat.testBit_lt_two_pow (Nat.lt_of_lt_of_le (by decide) hpow)
    have h2 : Nat.testBit m i = false :=
      Nat.testBit_lt_two_pow (Nat.lt_of_lt_of_le hm hpow)
    simp [h1, h2]

/-- On the success path, `server::init_server` turns the status into
`status | ~OPEN_SERVER | INIT_AS_SERVER | OPEN_SERVER`. -/
theorem init_server_status (c c' : Conn) (sr br : Int)
    (h : (server.init_server c sr br).1 = some c') :
    c'.status = c.status ||| not32 OPEN_SERVER ||| INIT_AS_SERVER ||| OPEN_SERVER := by
  unfold server.init_server connection.close_serverfd at h
  split_ifs at h <;> simp at h <;> rw [← h]

/-- On the success path, `client::init_connection` turns the status into
`status | ~OPEN_SOCKET | INIT_AS_CLIENT | OPEN_SOCKET`. -/
theorem init_connection_status (c c' : Conn) (sr : Int)
    (h : (client.init_connection c sr).1 = some c') :
    c'.status = c.status ||| not32 OPEN_SOCKET ||| INIT_AS_CLIENT ||| OPEN_SOCKET := by
  unfold client.init_connection connection.close_sockfd at h
  split_ifs at h <;> simp at h <;> rw [← h]

/-- Every public operation only ORs a mask below `2^32` into the status. -/
theorem stepOp_status (c c' : Conn) (o : Op) (h : stepOp c o = some c') :
    ∃ m : Nat, m < 2 ^ 32 ∧ c'.status = c.status ||| m := by
  cases o with
  | lstn st =>
      simp only [stepOp] at h
      unfold server.listen at h
      split_ifs at h <;> simp at h
      refine ⟨LISTENING, by decide, ?_⟩
      rw [← h]
  | acpt newfd =>
      simp only [stepOp] at h
      unfold server.accept at h
      split_ifs at h <;> simp at h
      refine ⟨OPEN_SOCKET ||| CONNECTED, by decide, ?_⟩
      rw [← h]
      exact Nat.lor_assoc _ _ _
  | conn st =>
      simp only [stepOp] at h
      unfold client.connect at h
      split_ifs at h <;> simp at h
      refine ⟨CONNECTED, by decide, ?_⟩
      rw [← h]
  | rd kres n =>
      simp only [stepOp] at h
      unfold connection.read at h
      split_ifs at h <;> simp at h <;>
        exact ⟨0, by decide, by rw [← h, Nat.or_zero]⟩
  | wr kres n =>
      simp only [stepOp] at h
      unfold connection.write at h
      split_ifs at h <;> simp at h <;>
        exact ⟨0, by decide, by rw [← h, Nat.or_zero]⟩
  | prd w kres n =>
      simp only [stepOp] at h
      unfold connection.partial_read connection.set_nonblock
        connection.unset_nonblock connection.read at h
      dsimp only at h
      split_ifs at h <;> simp at h <;>
        exact ⟨0, by decide, by rw [← h, Nat.or_zero]⟩
  | cls =>
      simp only [stepOp] at h
      unfold connection.close connection.close_sockfd at h
      split_ifs at h <;> simp at h
      · exact ⟨not32 OPEN_SOCKET, by decide, by rw [← h]⟩
      · exact ⟨not32 OPEN_SOCKET, by decide, by rw [← h]⟩
      · exact ⟨0, by decide, by rw [← h, Nat.or_zero]⟩
  | snb w =>
      simp only [stepOp] at h
      unfold connection.set_nonblock at h
      simp at h
      exact ⟨0, by decide, by rw [← h, Nat.or_zero]⟩
  | unb w =>
      simp only [stepOp] at h
      unfold connection.unset_nonblock at h
      simp at h
      exact ⟨0, by decide, by rw [← h, Nat.or_zero]⟩

/-- Every state reachable from a `server` or `client` constructor has status
`0xFFFFFFFF`: the constructors run `close_sockfd`/`close_serverfd`, whose
`status |= ~FLAG` sets every bit except `FLAG`, and the subsequent
`|= INIT_AS_*`/`|= OPEN_*` supplies the missing bit; afterwards every public
operation only ORs further bits in. -/
theorem reachable_status (c : Conn) (h : Reachable c) :
    c.status = 0xFFFFFFFF := by
  induction h with
  | serverInit s0 v0 p ip sr br c h =>
      have h0 : (connection.construct s0 v0 p ip).status = INITIALIZED := rfl
      rw [init_server_status _ c sr br h, h0]
      decide
  | clientInit s0 v0 p ip sr c h =>
      have h0 : (connection.construct s0 v0 p ip).status = INITIALIZED := rfl
      rw [init_connection_status _ c sr h, h0]
      decide
  | step c c' o hr h ih =>
      obtain ⟨m, hm, hst⟩ := stepOp_status c c' o h
      rw [hst, ih]
      exact or_ones32 m hm

/-! ## Claim theorems -/

/-- C1: `read`/`write` on an instance whose `CONNECTED` flag is unset return
`-1` (the NotConnectedError indicator), leave the state unchanged, and issue
no kernel call, for every kernel oracle and requested byte count. -/
theorem read_write_not_connected (c : Conn) (kr : KReadRes) (kw : Int) (n m : Int)
    (h : c.status &&& CONNECTED = 0) :
    connection.read c kr n = (c, -1, []) ∧ connection.write c kw m = (c, -1, []) := by
  constructor <;> simp [connection.read, connection.write, h]

/-- Witness for C1 at a concrete unconnected state. -/
theorem read_write_not_connected_witness :
    cListenOnly.status &&& CONNECTED = 0 ∧
    (connection.read cListenOnly KReadRes.wouldBlock 16 = (cListenOnly, -1, []) ∧
     connection.write cListenOnly 7 16 = (cListenOnly, -1, [])) :=
  ⟨by decide,
   read_write_not_connected cListenOnly KReadRes.wouldBlock 7 16 16 (by decide)⟩

/-- C10: `get_server_socket` guards on `OPEN_SOCKET`, not `OPEN_SERVER`:
with `OPEN_SOCKET` unset it returns `-1` — even when the listener is open —
and with `OPEN_SOCKET` set it returns `serverfd`. -/
theorem get_server_socket_guard (c : Conn) :
    (c.status &&& OPEN_SOCKET = 0 → connection.get_server_socket c = -1) ∧
    (c.status &&& OPEN_SOCKET ≠ 0 → connection.get_server_socket c = c.serverfd) := by
  constructor <;> intro h <;> simp [connection.get_server_socket, h]

/-- Witness for C10: a server with `OPEN_SERVER` set but `OPEN_SOCKET` unset
reports `-1` for its server descriptor; with `OPEN_SOCKET` set, `serverfd`
(here 4) is returned. -/
theorem get_server_socket_guard_witness :
    (cListenOnly.status &&& OPEN_SOCKET = 0 ∧ cListenOnly.status &&& OPEN_SERVER ≠ 0 ∧
     connection.get_server_socket cListenOnly = -1) ∧
    (cConnected.status &&& OPEN_SOCKET ≠ 0 ∧
     connection.get_server_socket cConnected = 4) :=
  ⟨⟨by decide, by decide, (get_server_socket_guard cListenOnly).1 (by decide)⟩,
   ⟨by decide, (get_server_socket_guard cConnected).2 (by decide)⟩⟩

/-- C3: the flag-clearing step of close is `status |= ~FLAG`, which sets
every other bit instead of clearing the intended one: for every prior
status, after `close_sockfd` every status bit below 32 other than the
`OPEN_SOCKET` bit (bit 4) is set and bit 4 itself is unchanged; likewise
`close_serverfd` with the `OPEN_SERVER` bit (bit 5). -/
theorem close_flags_invert_bug (c : Conn) :
    (∀ i, i < 32 → i ≠ 4 → ((connection.close_sockfd c).1.status).testBit i = true) ∧
    ((connection.close_sockfd c).1.status).testBit 4 = c.status.testBit 4 ∧
    (∀ i, i < 32 → i ≠ 5 → ((connection.close_serverfd c).1.status).testBit i = true) ∧
    ((connection.close_serverfd c).1.status).testBit 5 = c.status.testBit 5 := by
  have hs : (connection.close_sockfd c).1.status = c.status ||| not32 OPEN_SOCKET := rfl
  have hv : (connection.close_serverfd c).1.status = c.status ||| not32 OPEN_SERVER := rfl
  have hns : ∀ i, i < 32 → i ≠ 4 → Nat.testBit (not32 OPEN_SOCKET) i = true := by decide
  have hnv : ∀ i, i < 32 → i ≠ 5 → Nat.testBit (not32 OPEN_SERVER) i = true := by decide
  have h4 : Nat.testBit (not32 OPEN_SOCKET) 4 = false := by decide
  have h5 : Nat.testBit (not32 OPEN_SERVER) 5 = false := by decide
  refine ⟨?_, ?_, ?_, ?_⟩
  · intro i hi hne
    rw [hs, Nat.testBit_lor, hns i hi hne, Bool.or_true]
  · rw [hs, Nat.testBit_lor, h4, Bool.or_false]
  · intro i hi hne
    rw [hv, Nat.testBit_lor, hnv i hi hne, Bool.or_true]
  · rw [hv, Nat.testBit_lor, h5, Bool.or_false]

/-- Witness for C3 at a concrete state and bit: closing `cConnected` sets
for example bit 9 (the `LISTENING` bit), which was clear before, and leaves
bit 4 (`OPEN_SOCKET`) as it was. -/
theorem close_flags_invert_bug_witness :
    ((9 : Nat) < 32 ∧ (9 : Nat) ≠ 4 ∧
     ((connection.close_sockfd cConnected).1.status).testBit 9 = true) ∧
    ((connection.close_sockfd cConnected).1.status).testBit 4
      = cConnected.status.testBit 4 :=
  ⟨⟨by decide, by decide,
    (close_flags_invert_bug cConnected).1 9 (by decide) (by decide)⟩,
   (close_flags_invert_bug cConnected).2.1⟩

/-- C9: `set_nonblock` and `unset_nonblock` change no field of the
connection state (`status`, `sockfd`, `serverfd`, `port`, `ipaddr` are all
unchanged), and each is idempotent on the descriptor mode-flag map:
applying either twice yields the same flags as applying it once. -/
theorem nonblock_toggles_idempotent (c : Conn) (w : Int → Nat) :
    (connection.set_nonblock c w).1 = c ∧
    (connection.unset_nonblock c w).1 = c ∧
    (connection.set_nonblock c (connection.set_nonblock c w).2.1).2.1
      = (connection.set_nonblock c w).2.1 ∧
    (connection.unset_nonblock c (connection.unset_nonblock c w).2.1).2.1
      = (connection.unset_nonblock c w).2.1 := by
  refine ⟨rfl, rfl, ?_, ?_⟩
  · funext fd
    by_cases hfd : fd = c.sockfd
    · subst hfd
      simp [connection.set_nonblock, Nat.lor_assoc]
    · simp [connection.set_nonblock, hfd]
  · funext fd
    by_cases hfd : fd = c.sockfd
    · subst hfd
      simp [connection.unset_nonblock, Nat.land_assoc]
    · simp [connection.unset_nonblock, hfd]

/-- C4: in every state reachable from a constructor by any sequence of the
public operations, the `CONNECTED` flag is set only if `OPEN_SOCKET` is set:
`CONNECTED` is never observed without socket-open. -/
theorem connected_implies_open_socket (c : Conn) (hr : Reachable c)
    (_hc : c.status &&& CONNECTED ≠ 0) : c.status &&& OPEN_SOCKET ≠ 0 := by
  rw [reachable_status c hr]
  decide

/-- Witness for C4: the state a client constructor reaches with kernel
socket result 3 is reachable, has `CONNECTED` set, and has `OPEN_SOCKET`
set. -/
theorem connected_implies_open_socket_witness :
    cClientW.status &&& CONNECTED ≠ 0 ∧ cClientW.status &&& OPEN_SOCKET ≠ 0 :=
  ⟨by decide,
   connected_implies_open_socket cClientW
     (Reachable.clientInit 0 0 8081 (some "127.0.0.1") 3 cClientW (by decide))
     (by decide)⟩

/-- C8: `server::listen` always issues `::listen(serverfd, 50)` — a fixed
backlog of exactly 50 — and on success (`st = 0`) sets the `LISTENING`
flag; moreover in every reachable state the `OPEN_SERVER` (listener-open)
flag is already set, so `LISTENING` is only ever entered with the listener
open. -/
theorem listen_backlog_50 (c : Conn) (st : Int) :
    (server.listen c st).2 = [KCall.klisten c.serverfd 50] ∧
    (st = 0 →
      (server.listen c st).1 = some { c with status := c.status ||| LISTENING } ∧
      (c.status ||| LISTENING) &&& LISTENING ≠ 0) ∧
    (Reachable c → c.status &&& OPEN_SERVER ≠ 0) := by
  refine ⟨?_, ?_, ?_⟩
  · unfold server.listen
    split_ifs <;> rfl
  · intro hst
    subst hst
    refine ⟨by simp [server.listen], ?_⟩
    rw [lor_and_right]
    decide
  · intro hr
    rw [reachable_status c hr]
    decide

/-- Witness for C8 at the reachable server state `cServerW` with `st = 0`. -/
theorem listen_backlog_50_witness :
    ((server.listen cServerW 0).1
        = some { cServerW with status := cServerW.status ||| LISTENING } ∧
      (cServerW.status ||| LISTENING) &&& LISTENING ≠ 0) ∧
    cServerW.status &&& OPEN_SERVER ≠ 0 :=
  ⟨(listen_backlog_50 cServerW 0).2.1 rfl,
   (listen_backlog_50 cServerW 0).2.2
     (Reachable.serverInit 0 0 8081 (some "127.0.0.1") 4 0 cServerW (by decide))⟩

/-- C2 (code bug): at the failing input `cConnected` (a connection with
`OPEN_SOCKET` and `CONNECTED` set, data socket 5), the first `close`
succeeds (result 0, one kernel `close(5)`), but — because
`status |= ~OPEN_SOCKET` leaves both `CONNECTED` and `OPEN_SOCKET` set — a
second `close` again returns 0, not the AlreadyClosedError `-1`, and issues
a second kernel `close(5)`, releasing the same descriptor twice.  The last
conjunct records the part of the claim the code does satisfy: `close` on a
state that never connected returns `-1`. -/
theorem double_close_code_bug :
    (connection.close cConnected).2.1 = 0 ∧
    (connection.close cConnected).2.2 = [KCall.kclose 5] ∧
    (connection.close (connection.close cConnected).1).2.1 = 0 ∧
    (connection.close (connection.close cConnected).1).2.2 = [KCall.kclose 5] ∧
    (connection.close cListenOnly).2.1 = -1 := by
  decide

/-- C5 counterexample: at `cSrvOpen` (data socket 7 open, `OPEN_SOCKET`
set), `server::accept` with accepted descriptor 9 performs only the kernel
`accept` — descriptor 7 is never closed — and overwrites `sockfd` with 9,
so the prior descriptor is leaked rather than released. -/
theorem accept_leak_counterexample :
    cSrvOpen.status &&& OPEN_SOCKET ≠ 0 ∧
    (server.accept cSrvOpen 9).2 = [KCall.kaccept 4 9] ∧
    KCall.kclose 7 ∉ (server.accept cSrvOpen 9).2 ∧
    (server.accept cSrvOpen 9).1 = some { cSrvOpen with sockfd := 9 } := by
  decide

/-- C5 amended: for every state and non-negative accepted descriptor,
`accept` overwrites `sockfd` with the new descriptor and issues no kernel
close at all — a previously open data socket is not released before
replacement (the descriptor leak the spec warns about). -/
theorem accept_replaces_without_close (c : Conn) (newfd : Int) (h : 0 ≤ newfd) :
    (server.accept c newfd).1 = some { c with sockfd := newfd, status := c.status ||| OPEN_SOCKET ||| CONNECTED } ∧
    (server.accept c newfd).2 = [KCall.kaccept c.serverfd newfd] ∧
    ∀ fd, KCall.kclose fd ∉ (server.accept c newfd).2 := by
  have hneg : ¬ newfd < 0 := not_lt.mpr h
  refine ⟨?_, ?_, ?_⟩
  · simp [server.accept, hneg]
  · simp [server.accept, hneg]
  · intro fd
    simp [server.accept, hneg]

/-- Witness for the amended C5 at `cSrvOpen` with accepted descriptor 9. -/
theorem accept_replaces_without_close_witness :
    (0 : Int) ≤ 9 ∧
    ((server.accept cSrvOpen 9).1 = some { cSrvOpen with sockfd := 9, status := cSrvOpen.status ||| OPEN_SOCKET ||| CONNECTED } ∧
     (server.accept cSrvOpen 9).2 = [KCall.kaccept cSrvOpen.serverfd 9] ∧
     ∀ fd, KCall.kclose fd ∉ (server.accept cSrvOpen 9).2) :=
  ⟨by decide, accept_replaces_without_close cSrvOpen 9 (by decide)⟩

/-- C6 counterexample: constructing a client from the fresh state (stale
descriptor 0) with kernel socket result 3 issues `setsockopt` on descriptor
0 *before* `socket` returns 3: the kernel trace is
`[setsockopt 0, socket 3]`, and no `setsockopt` ever touches descriptor 3 —
yet 3 is the socket the subsequent `connect` uses.  So the client's socket
does not carry the address-reuse option when `connect` runs. -/
theorem client_reuseaddr_counterexample :
    (client.init_connection cFresh 3).2 = [KCall.ksetsockopt 0, KCall.ksocket 3] ∧
    Option.map Conn.sockfd (client.init_connection cFresh 3).1 = some 3 ∧
    KCall.ksetsockopt 3 ∉ (client.init_connection cFresh 3).2 := by
  decide

/-- C6 amended: the server applies the address-reuse option to the
listening socket it just created, between `socket` and `bind`, exactly as
the claim states; the client, however, applies it to the stale previous
`sockfd` *before* `socket` even runs, so the client's new socket does not
carry the option when `connect` runs. -/
theorem reuseaddr_order (c : Conn) (r b : Int) (hr : 0 ≤ r) :
    (server.init_server c r b).2
      = (connection.close_serverfd c).2
        ++ [KCall.ksocket r, KCall.ksetsockopt r, KCall.kbind r] ∧
    (client.init_connection c r).2
      = (connection.close_sockfd c).2
        ++ [KCall.ksetsockopt c.sockfd, KCall.ksocket r] := by
  have hneg : ¬ r < 0 := not_lt.mpr hr
  constructor
  · unfold server.init_server
    simp only [if_neg hneg]
    split_ifs <;> rfl
  · unfold client.init_connection
    simp only [if_neg hneg]
    simp [connection.close_sockfd]

/-- Witness for the amended C6 at the fresh state with socket result 3. -/
theorem reuseaddr_order_witness :
    (0 : Int) ≤ 3 ∧
    ((server.init_server cFresh 3 0).2
        = (connection.close_serverfd cFresh).2
          ++ [KCall.ksocket 3, KCall.ksetsockopt 3, KCall.kbind 3] ∧
     (client.init_connection cFresh 3).2
        = (connection.close_sockfd cFresh).2
          ++ [KCall.ksetsockopt cFresh.sockfd, KCall.ksocket 3]) :=
  ⟨by decide, reuseaddr_order cFresh 3 0 (by decide)⟩

/-- C7 counterexample: on the connected state `cConnected`, `partial_read`
returns `-1` when the kernel reports would-block — the very same value it
returns on a genuine read error, and the same `-1` that `read` uses as its
error indicator — so the no-data outcome is *not* distinct from an error
result. -/
theorem partial_read_wouldblock_counterexample :
    (connection.partial_read cConnected (fun _ => 0) KReadRes.wouldBlock 5).2.2.1 = -1 ∧
    (connection.partial_read cConnected (fun _ => 0) KReadRes.fail 5).2.2.1 = -1 ∧
    (connection.read cListenOnly KReadRes.fail 5).2.1 = -1 := by
  decide

/-- C7 amended: on a connected instance, `partial_read` performs exactly
the sequence switch-to-non-blocking (fcntl get/set adding `O_NONBLOCK`),
one kernel read, restore-blocking (fcntl get/set clearing `O_NONBLOCK`);
it leaves the connection state unchanged and returns the kernel read
result unmodified — in particular, when no data is pending the would-block
kernel result surfaces as `-1`, which coincides with the error indicator
rather than being distinct from it. -/
theorem partial_read_sequence (c : Conn) (w : Int → Nat) (kres : KReadRes) (n : Int)
    (h : c.status &&& CONNECTED ≠ 0) :
    (connection.partial_read c w kres n).2.2.2
      = [KCall.kgetfl c.sockfd, KCall.ksetfl c.sockfd (w c.sockfd ||| O_NONBLOCK),
         KCall.kread c.sockfd n,
         KCall.kgetfl c.sockfd,
         KCall.ksetfl c.sockfd ((w c.sockfd ||| O_NONBLOCK) &&& not32 O_NONBLOCK)] ∧
    ((connection.partial_read c w kres n).2.1) c.sockfd &&& O_NONBLOCK = 0 ∧
    (connection.partial_read c w kres n).2.2.1 = kres.toInt ∧
    (connection.partial_read c w kres n).1 = c ∧
    KReadRes.wouldBlock.toInt = -1 := by
  have hc : ¬ (c.status &&& CONNECTED = 0) := h
  refine ⟨?_, ?_, ?_, ?_, rfl⟩
  · simp [connection.partial_read, connection.set_nonblock,
          connection.unset_nonblock, connection.read, hc]
  · simp [connection.partial_read, connection.set_nonblock,
          connection.unset_nonblock, connection.read, hc]
    rw [Nat.land_assoc]
    have h0 : not32 O_NONBLOCK &&& O_NONBLOCK = 0 := by decide
    rw [h0, Nat.and_zero]
  · simp [connection.partial_read, connection.set_nonblock,
          connection.unset_nonblock, connection.read, hc]
  · simp [connection.partial_read, connection.set_nonblock,
          connection.unset_nonblock, connection.read, hc]

/-- Witness for the amended C7 at `cConnected` with a would-block read. -/
theorem partial_read_sequence_witness :
    cConnected.status &&& CONNECTED ≠ 0 ∧
    (connection.partial_read cConnected (fun _ => 0) KReadRes.wouldBlock 5).2.2.1
      = KReadRes.wouldBlock.toInt :=
  ⟨by decide,
   (partial_read_sequence cConnected (fun _ => 0) KReadRes.wouldBlock 5
      (by decide)).2.2.1⟩

end Tcp
